import Mathlib

/-!
# slop: the X11 selection engine of `src/x.cpp`

A shallow embedding of `slop::Rectangle` (the overlay surface) and of
`slop::XEngine` (the resource manager), followed by the properties that the
specification states about them.

Conventions of the embedding.

* A method that mutates its object becomes a function returning the new
  object; a method that talks to the X server also returns the list of Xlib
  calls it makes, in program order (`List XRequest`).  Values that come back
  from the server (the id of a created window, the child window of
  `XQueryPointer`, the queued events, ...) are arguments of the function.
* C++ `int` is `Int` and `unsigned int` is `Nat`.  Signed overflow is
  undefined behaviour in C++, so the model describes the executions in which
  the arithmetic of `constrain` stays inside `int`; a button number is a
  `CARD8` of the X protocol, so `button + 2` does not wrap.
* `std::vector<T>` is `List T`; `resize` is `vresize`.
* A `Rectangle*` is a `RectPtr`; the object it designates is looked up in a
  `Heap`.
* Diagnostics written to `stderr` are not part of the model.
-/

namespace slop

/-! ## X11 vocabulary -/

/-- X resource id of a window. -/
abbrev Window := Nat

/-- X resource id of a cursor. -/
abbrev Cursor := Nat

/-- The Xlib constant `None`: no window. -/
def None : Window := 0

/-- The Xlib error code `BadColor`. -/
def BadColor : Int := 12

/-- The Xlib constant `GrabSuccess`. -/
def GrabSuccess : Int := 0

/-- A C `float` argument, kept as its bit pattern: no floating-point
arithmetic is modelled. -/
structure CFloat where
  bits : Nat
  deriving DecidableEq, Repr

/-- The Xlib colour cell `XColor`, as the server fills it in. -/
structure XColor where
  pixel : Nat
  red : Nat
  green : Nat
  blue : Nat
  deriving DecidableEq, Repr

/-- Shape operation of `XShapeCombineRectangles`. -/
inductive ShapeOp where
  | ShapeSet
  | ShapeSubtract
  deriving DecidableEq, Repr

/-- The Xlib calls made by `src/x.cpp`, with the arguments the program
computes for them (signed values are recorded as computed, at type `int`). -/
inductive XRequest where
  | XOpenDisplay
  | XSetErrorHandler
  | XCloseDisplay
  | XAllocColor (r g b : CFloat)
  | XCreateWindow (x y width height : Int) (background_pixel : Option Nat)
  | XSetClassHint (win : Window)
  | XShapeCombineRectangles (win : Window) (x y width height : Int) (op : ShapeOp)
  | XMapWindow (win : Window)
  | XMoveWindow (win : Window) (x y : Int)
  | XResizeWindow (win : Window) (width height : Int)
  | XDestroyWindow (win : Window)
  | XIfEvent (win : Window)
  | XQueryKeymap
  | XGrabKeyboard
  | XUngrabKeyboard
  | XGrabPointer (cursor : Cursor)
  | XUngrabPointer
  | XQueryPointer
  | XFlush
  | XPending
  | XNextEvent
  | XCreateFontCursor (shape : Nat)
  | XChangeActivePointerGrab (cursor : Cursor)
  | XFreeCursor (cursor : Cursor)
  deriving DecidableEq, Repr

/-- The function `std::abs` on `int`. -/
def cabs (n : Int) : Int := if n < 0 then -n else n

/-- The method `std::vector::resize(n, val)`: keeps the first `n` elements and pads with
`val` up to length `n`. -/
def vresize {α : Type} (v : List α) (n : Nat) (val : α) : List α :=
  v.take n ++ List.replicate (n - v.length) val

/-! ## The overlay surface `slop::Rectangle` -/

/-- The fields of `slop::Rectangle`.  `m_color` is `none` while the
constructor has not assigned it. -/
structure Rectangle where
  m_window : Window
  m_x : Int
  m_y : Int
  m_xoffset : Int
  m_yoffset : Int
  m_width : Int
  m_height : Int
  m_border : Int
  m_padding : Int
  m_color : Option XColor
  m_flippedx : Bool
  m_flippedy : Bool
  deriving DecidableEq, Repr

namespace Rectangle

/-- The method `slop::Rectangle::constrain( int w, int h )`. -/
def constrain (self : Rectangle) (w h : Int) : Rectangle :=
  let pad := self.m_padding
  let pad := if pad < 0 ∧ cabs w < cabs pad * 2 then 0 else pad
  let self :=
    if w < 0 then
      { self with m_flippedx := true, m_xoffset := w - pad, m_width := -w + pad * 2 }
    else
      { self with m_flippedx := false, m_xoffset := -pad, m_width := w + pad * 2 }
  let pad := self.m_padding
  let pad := if pad < 0 ∧ cabs h < cabs pad * 2 then 0 else pad
  if h < 0 then
    { self with m_flippedy := true, m_yoffset := h - pad, m_height := -h + pad * 2 }
  else
    { self with m_flippedy := false, m_yoffset := -pad, m_height := h + pad * 2 }

/-- The method `slop::Rectangle::convertColor( float r, float g, float b )`.  `status`
is what `XAllocColor` returns and `color` the cell as the server fills it in;
the conversion of the three channels to `short` is floating-point arithmetic
and stays inside the recorded call. -/
def convertColor (self : Rectangle) (r g b : CFloat) (status : Int) (color : XColor) :
    Int × Rectangle × List XRequest :=
  let err := status
  if err = BadColor then
    (err, self, [XRequest.XAllocColor r g b])
  else
    (0, { self with m_color := some color }, [XRequest.XAllocColor r g b])

end Rectangle

/-- What the X server answers while a `Rectangle` is constructed: the status
and colour cell of `XAllocColor` and the id of the window made by
`XCreateWindow`. -/
structure CreateReply where
  allocStatus : Int
  allocColor : XColor
  window : Window
  deriving DecidableEq, Repr

namespace Rectangle

/-- The constructor `slop::Rectangle::Rectangle( x, y, width, height, border,
padding, r, g, b )`.  The two flip flags are not initialised before
`constrain` assigns them. -/
def new (x y width height border padding : Int) (r g b : CFloat) (srv : CreateReply) :
    Rectangle × List XRequest :=
  let self : Rectangle :=
    { m_xoffset := 0, m_yoffset := 0, m_x := x, m_y := y, m_width := width,
      m_height := height, m_border := border, m_padding := padding, m_window := None,
      m_color := none, m_flippedx := false, m_flippedy := false }
  let self := self.constrain width height
  if self.m_border = 0 then
    (self, [])
  else
    let (_, self, colorLog) := self.convertColor r g b srv.allocStatus srv.allocColor
    let createWindow :=
      XRequest.XCreateWindow (self.m_x + self.m_xoffset - self.m_border)
        (self.m_y + self.m_yoffset - self.m_border)
        (self.m_width + self.m_border * 2) (self.m_height + self.m_border * 2)
        (self.m_color.map XColor.pixel)
    let self := { self with m_window := srv.window }
    (self, colorLog ++
      [createWindow,
       XRequest.XSetClassHint self.m_window,
       XRequest.XShapeCombineRectangles self.m_window self.m_border self.m_border
         self.m_width self.m_height ShapeOp.ShapeSubtract,
       XRequest.XMapWindow self.m_window])

/-- The destructor `slop::Rectangle::~Rectangle()`: the calls it makes. -/
def delete (self : Rectangle) : List XRequest :=
  if self.m_window = None then
    []
  else
    [XRequest.XDestroyWindow self.m_window, XRequest.XIfEvent self.m_window]

/-- The method `slop::Rectangle::setPos( int x, int y )`. -/
def setPos (self : Rectangle) (x y : Int) : Rectangle × List XRequest :=
  if self.m_x = x ∧ self.m_y = y then
    (self, [])
  else
    let self := { self with m_x := x, m_y := y }
    if self.m_border = 0 then
      (self, [])
    else
      (self, [XRequest.XMoveWindow self.m_window (self.m_x + self.m_xoffset - self.m_border)
                (self.m_y + self.m_yoffset - self.m_border)])

/-- The method `slop::Rectangle::setDim( int w, int h )`. -/
def setDim (self : Rectangle) (w h : Int) : Rectangle × List XRequest :=
  if self.m_width = w ∧ self.m_height = h then
    (self, [])
  else
    let self := self.constrain w h
    if self.m_border = 0 then
      (self, [])
    else
      (self,
        [XRequest.XResizeWindow self.m_window (self.m_width + self.m_border * 2)
           (self.m_height + self.m_border * 2),
         XRequest.XMoveWindow self.m_window (self.m_x + self.m_xoffset - self.m_border)
           (self.m_y + self.m_yoffset - self.m_border),
         XRequest.XShapeCombineRectangles self.m_window 0 0
           (self.m_width + self.m_border * 2) (self.m_height + self.m_border * 2)
           ShapeOp.ShapeSet,
         XRequest.XShapeCombineRectangles self.m_window self.m_border self.m_border
           self.m_width self.m_height ShapeOp.ShapeSubtract])

end Rectangle

/-- Recognises the window-creation call in a list of Xlib calls. -/
def isCreateWindow : XRequest → Bool
  | XRequest.XCreateWindow _ _ _ _ _ => true
  | _ => false

/-- A call the owner of a surface makes on it after creating it. -/
inductive RectOp where
  | setPos (x y : Int)
  | setDim (w h : Int)
  deriving DecidableEq, Repr

/-- One owner call applied to a surface. -/
def RectOp.apply (self : Rectangle) : RectOp → Rectangle × List XRequest
  | RectOp.setPos x y => self.setPos x y
  | RectOp.setDim w h => self.setDim w h

/-- The surface after a sequence of owner calls, first call first. -/
def runRectOps (self : Rectangle) (ops : List RectOp) : Rectangle :=
  ops.foldl (fun r op => (op.apply r).1) self

/-! ## The resource manager `slop::XEngine` -/

/-- A `Rectangle*`: the address of a surface. -/
abbrev RectPtr := Nat

/-- The surface each `Rectangle*` designates. -/
abbrev Heap := RectPtr → Rectangle

/-- The enumeration `slop::CursorType`. -/
inductive CursorType where
  | Left
  | Crosshair
  | Cross
  | UpperLeftCorner
  | UpperRightCorner
  | LowerLeftCorner
  | LowerRightCorner
  deriving DecidableEq, Repr

/-- Shape `XC_left_ptr` of the X cursor font (`X11/cursorfont.h`). -/
def XC_left_ptr : Nat := 68

/-- Shape `XC_crosshair` of the X cursor font. -/
def XC_crosshair : Nat := 34

/-- Shape `XC_cross` of the X cursor font. -/
def XC_cross : Nat := 30

/-- Shape `XC_ul_angle` of the X cursor font. -/
def XC_ul_angle : Nat := 144

/-- Shape `XC_ur_angle` of the X cursor font. -/
def XC_ur_angle : Nat := 148

/-- Shape `XC_ll_angle` of the X cursor font. -/
def XC_ll_angle : Nat := 76

/-- Shape `XC_lr_angle` of the X cursor font. -/
def XC_lr_angle : Nat := 78

/-- The events `XEngine::tick` distinguishes; `other` is any event type its
`switch` sends to `default`. -/
inductive XEvent where
  | MotionNotify (x y : Int)
  | ButtonPress (button : Nat)
  | ButtonRelease (button : Nat)
  | KeyPress
  | KeyRelease
  | other
  deriving DecidableEq, Repr

/-- What a successful `XOpenDisplay` provides to `XEngine::init`. -/
structure DisplayInfo where
  display : Nat
  screen : Nat
  visual : Nat
  colormap : Nat
  root : Window
  deriving DecidableEq, Repr

/-- What the X server answers during `XEngine::grabCursor`: the cursor
`XCreateFontCursor` makes (when it is called), the result of `XGrabPointer`,
and the child window and pointer position of `XQueryPointer`. -/
structure GrabReply where
  cursor : Cursor
  err : Int
  child : Window
  mx : Int
  my : Int
  deriving DecidableEq, Repr

/-- The fields of `slop::XEngine`.  A null pointer and a field the
constructor leaves unassigned are `none`. -/
structure XEngine where
  m_display : Option Nat
  m_visual : Option Nat
  m_screen : Option Nat
  m_colormap : Option Nat
  m_root : Option Window
  m_good : Bool
  m_mousex : Int
  m_mousey : Int
  m_hoverWindow : Window
  m_mouse : List Bool
  m_cursors : List Cursor
  m_rects : List RectPtr
  deriving DecidableEq, Repr

namespace XEngine

/-- The constructor `slop::XEngine::XEngine()`. -/
def new : XEngine :=
  { m_display := none, m_visual := none, m_screen := none, m_colormap := none,
    m_root := none, m_good := false, m_mousex := -1, m_mousey := -1,
    m_hoverWindow := None, m_mouse := [], m_cursors := [], m_rects := [] }

/-- The destructor `slop::XEngine::~XEngine()`: the calls it makes. -/
def delete (self : XEngine) (mem : Heap) : List XRequest :=
  if !self.m_good then
    []
  else
    ((self.m_cursors.filter (fun c => c ≠ 0)).map XRequest.XFreeCursor)
      ++ (self.m_rects.map (fun p => (mem p).delete)).flatten
      ++ [XRequest.XCloseDisplay]

/-- The method `slop::XEngine::addRect( Rectangle* rect )`. -/
def addRect (self : XEngine) (rect : RectPtr) : XEngine :=
  { self with m_rects := self.m_rects ++ [rect] }

/-- The method `slop::XEngine::removeRect( Rectangle* rect )`: the first entry equal to
`rect` is erased and the surface deleted. -/
def removeRect (self : XEngine) (mem : Heap) (rect : RectPtr) : XEngine × List XRequest :=
  if rect ∈ self.m_rects then
    ({ self with m_rects := self.m_rects.erase rect }, (mem rect).delete)
  else
    (self, [])

/-- The method `slop::XEngine::mouseDown( unsigned int button )`. -/
def mouseDown (self : XEngine) (button : Nat) : Bool :=
  if button ≥ self.m_mouse.length then
    false
  else
    self.m_mouse.getD button false

/-- The method `slop::XEngine::init( std::string display )`; `srv` is the connection
`XOpenDisplay` returns, `none` for a null pointer. -/
def init (self : XEngine) (srv : Option DisplayInfo) : Int × XEngine × List XRequest :=
  match srv with
  | none => (1, { self with m_display := none }, [XRequest.XOpenDisplay])
  | some d =>
    (0,
     { self with
       m_display := some d.display, m_screen := some d.screen, m_visual := some d.visual,
       m_colormap := some d.colormap, m_root := some d.root, m_good := true },
     [XRequest.XOpenDisplay, XRequest.XSetErrorHandler])

/-- The method `slop::XEngine::anyKeyPressed()`; `keys` is the 32-byte keymap that
`XQueryKeymap` returns. -/
def anyKeyPressed (self : XEngine) (keys : Nat → Int) : Bool × List XRequest :=
  if !self.m_good then
    (false, [])
  else
    ((List.range 32).any (fun i => keys i ≠ 0), [XRequest.XQueryKeymap])

/-- The method `slop::XEngine::grabKeyboard()`. -/
def grabKeyboard (self : XEngine) : Int × XEngine × List XRequest :=
  if !self.m_good then
    (1, self, [])
  else
    (0, self, [XRequest.XGrabKeyboard])

/-- The method `slop::XEngine::releaseKeyboard()`. -/
def releaseKeyboard (self : XEngine) : Int × XEngine × List XRequest :=
  if !self.m_good then
    (1, self, [])
  else
    (0, self, [XRequest.XUngrabKeyboard])

/-- The method `slop::XEngine::releaseCursor()`. -/
def releaseCursor (self : XEngine) : Int × XEngine × List XRequest :=
  if !self.m_good then
    (1, self, [])
  else
    (0, self, [XRequest.XUngrabPointer])

/-- The `switch` of `slop::XEngine::getCursor`: the font shape of a cursor
kind. -/
def xfontcursorOf : CursorType → Nat
  | CursorType.Left => XC_left_ptr
  | CursorType.Crosshair => XC_crosshair
  | CursorType.Cross => XC_cross
  | CursorType.UpperLeftCorner => XC_ul_angle
  | CursorType.UpperRightCorner => XC_ur_angle
  | CursorType.LowerLeftCorner => XC_ll_angle
  | CursorType.LowerRightCorner => XC_lr_angle

/-- The method `slop::XEngine::getCursor( slop::CursorType type )`; `created` is the
cursor `XCreateFontCursor` returns when it is called. -/
def getCursor (self : XEngine) (type : CursorType) (created : Cursor) :
    Cursor × XEngine × List XRequest :=
  let xfontcursor := xfontcursorOf type
  let newcursor : Cursor := 0
  let newcursor :=
    if self.m_cursors.length > xfontcursor then self.m_cursors.getD xfontcursor 0
    else newcursor
  if newcursor = 0 then
    let newcursor := created
    let cursors := vresize self.m_cursors (xfontcursor + 2) 0
    let cursors := cursors.set xfontcursor newcursor
    (newcursor, { self with m_cursors := cursors }, [XRequest.XCreateFontCursor xfontcursor])
  else
    (newcursor, self, [])

/-- The method `slop::XEngine::setCursor( slop::CursorType type )`. -/
def setCursor (self : XEngine) (type : CursorType) (created : Cursor) :
    XEngine × List XRequest :=
  if !self.m_good then
    (self, [])
  else
    let (xfontcursor, self, log) := self.getCursor type created
    (self, log ++ [XRequest.XChangeActivePointerGrab xfontcursor])

/-- The method `slop::XEngine::updateHoverWindow( Window hoverwin )`: the overload that
is given the child window. -/
def updateHoverWindowAt (self : XEngine) (mem : Heap) (hoverwin : Window) : XEngine :=
  if self.m_hoverWindow = hoverwin then
    self
  else if self.m_rects.any (fun p => (mem p).m_window = hoverwin) then
    self
  else
    { self with m_hoverWindow := hoverwin }

/-- The method `slop::XEngine::updateHoverWindow()`: the overload that asks the server;
`hoverwin` is the child window `XQueryPointer` returns. -/
def updateHoverWindow (self : XEngine) (mem : Heap) (hoverwin : Window) :
    XEngine × List XRequest :=
  if self.m_hoverWindow = hoverwin then
    (self, [XRequest.XQueryPointer])
  else if self.m_rects.any (fun p => (mem p).m_window = hoverwin) then
    (self, [XRequest.XQueryPointer])
  else
    ({ self with m_hoverWindow := hoverwin }, [XRequest.XQueryPointer])

/-- The method `slop::XEngine::grabCursor( slop::CursorType type )`. -/
def grabCursor (self : XEngine) (mem : Heap) (type : CursorType) (srv : GrabReply) :
    Int × XEngine × List XRequest :=
  if !self.m_good then
    (1, self, [])
  else
    let (xfontcursor, self, log) := self.getCursor type srv.cursor
    let err := srv.err
    if err ≠ GrabSuccess then
      (1, self, log ++ [XRequest.XGrabPointer xfontcursor])
    else
      let self := { self with m_mousex := srv.mx, m_mousey := srv.my }
      let self := self.updateHoverWindowAt mem srv.child
      (0, self, log ++ [XRequest.XGrabPointer xfontcursor, XRequest.XQueryPointer])

/-- The body of the event loop of `slop::XEngine::tick`: one event folded
into the engine. -/
def tickEvent (self : XEngine) : XEvent → XEngine
  | XEvent.MotionNotify x y => { self with m_mousex := x, m_mousey := y }
  | XEvent.ButtonPress button =>
    if self.m_mouse.length > button then
      { self with m_mouse := self.m_mouse.set button true }
    else
      { self with m_mouse := (vresize self.m_mouse (button + 2) false).set button true }
  | XEvent.ButtonRelease button =>
    if self.m_mouse.length > button then
      { self with m_mouse := self.m_mouse.set button false }
    else
      { self with m_mouse := (vresize self.m_mouse (button + 2) false).set button false }
  | XEvent.KeyPress => self
  | XEvent.KeyRelease => self
  | XEvent.other => self

/-- The method `slop::XEngine::tick()`; `events` is the queue drained by the
`XPending`/`XNextEvent` loop and `hoverwin` the child window that the final
`XQueryPointer` returns. -/
def tick (self : XEngine) (mem : Heap) (events : List XEvent) (hoverwin : Window) :
    XEngine × List XRequest :=
  if !self.m_good then
    (self, [])
  else
    let self := events.foldl tickEvent self
    let drain := (events.map (fun _ => [XRequest.XPending, XRequest.XNextEvent])).flatten
    let (self, log) := self.updateHoverWindow mem hoverwin
    (self, [XRequest.XFlush] ++ drain ++ [XRequest.XPending] ++ log)

end XEngine

/-- A call made on the engine. -/
inductive EngineOp where
  | init (srv : Option DisplayInfo)
  | addRect (rect : RectPtr)
  | removeRect (rect : RectPtr)
  | updateHoverWindow (hoverwin : Window)
  | updateHoverWindowAt (hoverwin : Window)
  | tick (events : List XEvent) (hoverwin : Window)
  | grabCursor (type : CursorType) (srv : GrabReply)
  deriving DecidableEq, Repr

/-- One engine call applied to the engine. -/
def EngineOp.apply (mem : Heap) (self : XEngine) : EngineOp → XEngine
  | EngineOp.init srv => (self.init srv).2.1
  | EngineOp.addRect rect => self.addRect rect
  | EngineOp.removeRect rect => (self.removeRect mem rect).1
  | EngineOp.updateHoverWindow hoverwin => (self.updateHoverWindow mem hoverwin).1
  | EngineOp.updateHoverWindowAt hoverwin => self.updateHoverWindowAt mem hoverwin
  | EngineOp.tick events hoverwin => (self.tick mem events hoverwin).1
  | EngineOp.grabCursor type srv => (self.grabCursor mem type srv).2.1

/-- The engine after a sequence of calls, first call first.  The heap is the
same along the run: the engine reads only `m_window` through its pointers,
and no method assigns `m_window` after the constructor. -/
def runEngineOps (mem : Heap) (self : XEngine) (ops : List EngineOp) : XEngine :=
  ops.foldl (EngineOp.apply mem) self

/-- The cached hover target is not the window of a tracked surface; a
surface without a window (handle `None`) has no window to compare. -/
def HoverExcluded (mem : Heap) (self : XEngine) : Prop :=
  ∀ p ∈ self.m_rects, (mem p).m_window ≠ None → (mem p).m_window ≠ self.m_hoverWindow

/-- Every `addRect` of the run adds a surface that has no window or whose
window is not the hover target cached at that moment. -/
def AddsUntargeted (mem : Heap) (self : XEngine) : List EngineOp → Prop
  | [] => True
  | op :: ops =>
    (match op with
      | EngineOp.addRect rect =>
        (mem rect).m_window ≠ None → (mem rect).m_window ≠ self.m_hoverWindow
      | _ => True)
    ∧ AddsUntargeted mem (op.apply mem self) ops

/-! ## Concrete inputs of the scenarios -/

/-- A colour channel used in the scenarios. -/
def channel0 : CFloat := { bits := 0 }

/-- Server answers used in the scenarios: the colour is granted and the new
window gets id 5. -/
def reply5 : CreateReply :=
  { allocStatus := 1, allocColor := { pixel := 0, red := 0, green := 0, blue := 0 },
    window := 5 }

/-- Scenario A of the specification: `Create(10, 10, -50, -50, border 2,
padding 0)`. -/
def scenarioA : Rectangle × List XRequest :=
  Rectangle.new 10 10 (-50) (-50) 2 0 channel0 channel0 channel0 reply5

/-- Scenario B of the specification: `Create(w = 50, h = 50, border 0,
padding 0)`, here at the origin. -/
def scenarioB : Rectangle × List XRequest :=
  Rectangle.new 0 0 50 50 0 0 channel0 channel0 channel0 reply5

/-- The connection used in the scenarios. -/
def display0 : DisplayInfo :=
  { display := 1, screen := 0, visual := 0, colormap := 0, root := 1 }

/-- A heap in which every pointer designates the surface of scenario A, whose
window has id 5. -/
def heapA : Heap := fun _ => scenarioA.1

/-- A heap in which every pointer designates the inert surface of scenario B
(no window). -/
def heapB : Heap := fun _ => scenarioB.1

/-- An initialised engine in which a release of button 2 has been folded: its
button container tracks the buttons 0 to 3, all released. -/
def engineD : XEngine :=
  ((XEngine.new.init (some display0)).2.1.tick heapA [XEvent.ButtonRelease 2] 0).1

/-- The engine right after a successful `init`. -/
def engine0 : XEngine := (XEngine.new.init (some display0)).2.1

/-- Three cursor changes on `engine0`: upper-right corner, left pointer,
upper-right corner again; the server hands out the cursors 101, 102, 103.
The result lists, per call, the engine after it and the Xlib calls made. -/
def cursorRun : List (XEngine × List XRequest) :=
  let s1 := engine0.setCursor CursorType.UpperRightCorner 101
  let s2 := s1.1.setCursor CursorType.Left 102
  let s3 := s2.1.setCursor CursorType.UpperRightCorner 103
  [s1, s2, s3]

/-- A keymap with no key down. -/
def noKeys : Nat → Int := fun _ => 0

/-- Server answers for a pointer grab used in the scenarios. -/
def grabReply0 : GrabReply := { cursor := 101, err := 0, child := 5, mx := 0, my := 0 }

/-- A heap with the inert surface of scenario B at address 2 and the surface
of scenario A (window 5) at every other address. -/
def heapAB : Heap := fun p => if p = 2 then scenarioB.1 else scenarioA.1

/-- A run in which an inert surface (address 2) and the surface owning
window 5 (address 1) are tracked before the pointer is ever resolved; the
server then reports window 5 and later window 7.  Both surfaces are still
tracked at the end. -/
def runTrackedFirst : List EngineOp :=
  [EngineOp.init (some display0), EngineOp.addRect 2, EngineOp.addRect 1,
   EngineOp.tick [] 5, EngineOp.tick [] 7]

/-- A run in which `tick` resolves the pointer over window 5 before the
surface that owns window 5 is handed to `addRect`. -/
def runTrackedLate : List EngineOp :=
  [EngineOp.init (some display0), EngineOp.tick [] 5, EngineOp.addRect 1]

/-! ## The Geometry Normalizer as the specification words it -/

/-- Result of the Geometry Normalizer on one axis. -/
structure Normalized where
  offset : Int
  normalized : Int
  flipped : Bool
  deriving DecidableEq, Repr

/-- Effective padding of the specification: `0` when `p` is negative and
`|e| < 2|p|`, and `p` otherwise. -/
def effectivePadding (e p : Int) : Int :=
  if p < 0 ∧ |e| < 2 * |p| then 0 else p

/-- The Geometry Normalizer of the specification (section 4.1), one axis. -/
def normalizeAxis (e p : Int) : Normalized :=
  let p_eff := effectivePadding e p
  if e < 0 then
    { flipped := true, offset := e - p_eff, normalized := -e + 2 * p_eff }
  else
    { flipped := false, offset := -p_eff, normalized := e + 2 * p_eff }

/-! ## Properties of the overlay surface -/

theorem cabs_eq_abs (n : Int) : cabs n = |n| := by
  unfold cabs
  split_ifs with h
  · exact (abs_of_neg h).symm
  · exact (abs_of_nonneg (not_lt.mp h)).symm

theorem padding_agrees (e p : Int) :
    (if p < 0 ∧ cabs e < cabs p * 2 then 0 else p) = effectivePadding e p := by
  unfold effectivePadding
  rw [cabs_eq_abs, cabs_eq_abs, mul_comm]

theorem constrain_eq_normalizeAxis (self : Rectangle) (w h : Int) :
    self.constrain w h =
      { self with
        m_flippedx := (normalizeAxis w self.m_padding).flipped
        m_xoffset := (normalizeAxis w self.m_padding).offset
        m_width := (normalizeAxis w self.m_padding).normalized
        m_flippedy := (normalizeAxis h self.m_padding).flipped
        m_yoffset := (normalizeAxis h self.m_padding).offset
        m_height := (normalizeAxis h self.m_padding).normalized } := by
  unfold Rectangle.constrain normalizeAxis
  simp only [padding_agrees]
  by_cases hw : w < 0 <;> by_cases hh : h < 0 <;> simp [hw, hh, mul_comm]

/-- C1: on each axis `Rectangle::constrain` computes exactly the Geometry
Normalizer of the specification: the x fields are the normalizer output for
`(w, m_padding)`, the y fields its output for `(h, m_padding)`, each
independent of the other extent, and no other field changes. -/
theorem constrain_is_normalizer (self : Rectangle) (w h : Int) :
    self.constrain w h =
      { self with
        m_flippedx := (normalizeAxis w self.m_padding).flipped
        m_xoffset := (normalizeAxis w self.m_padding).offset
        m_width := (normalizeAxis w self.m_padding).normalized
        m_flippedy := (normalizeAxis h self.m_padding).flipped
        m_yoffset := (normalizeAxis h self.m_padding).offset
        m_height := (normalizeAxis h self.m_padding).normalized } :=
  constrain_eq_normalizeAxis self w h

theorem constrain_nonneg (self : Rectangle) (w h : Int) :
    0 ≤ (self.constrain w h).m_width ∧ 0 ≤ (self.constrain w h).m_height := by
  unfold Rectangle.constrain cabs
  constructor <;> (split_ifs <;> simp <;> omega)

theorem new_nonneg (x y width height border padding : Int) (r g b : CFloat)
    (srv : CreateReply) :
    0 ≤ (Rectangle.new x y width height border padding r g b srv).1.m_width ∧
      0 ≤ (Rectangle.new x y width height border padding r g b srv).1.m_height := by
  have h := constrain_nonneg
    { m_xoffset := 0, m_yoffset := 0, m_x := x, m_y := y, m_width := width,
      m_height := height, m_border := border, m_padding := padding, m_window := None,
      m_color := none, m_flippedx := false, m_flippedy := false } width height
  unfold Rectangle.new Rectangle.convertColor
  simp only []
  split_ifs <;> exact h

theorem setPos_size (self : Rectangle) (x y : Int) :
    (self.setPos x y).1.m_width = self.m_width ∧
      (self.setPos x y).1.m_height = self.m_height := by
  unfold Rectangle.setPos
  simp only []
  split_ifs <;> simp

theorem setDim_nonneg (self : Rectangle) (w h : Int)
    (hw : 0 ≤ self.m_width) (hh : 0 ≤ self.m_height) :
    0 ≤ (self.setDim w h).1.m_width ∧ 0 ≤ (self.setDim w h).1.m_height := by
  have hc := constrain_nonneg self w h
  unfold Rectangle.setDim
  simp only []
  split_ifs
  · exact ⟨hw, hh⟩
  · exact hc
  · exact hc

theorem runRectOps_nonneg (ops : List RectOp) (self : Rectangle)
    (hw : 0 ≤ self.m_width) (hh : 0 ≤ self.m_height) :
    0 ≤ (runRectOps self ops).m_width ∧ 0 ≤ (runRectOps self ops).m_height := by
  induction ops generalizing self with
  | nil => exact ⟨hw, hh⟩
  | cons op ops ih =>
    have step : 0 ≤ (op.apply self).1.m_width ∧ 0 ≤ (op.apply self).1.m_height := by
      cases op with
      | setPos x y =>
        have h := setPos_size self x y
        simp only [RectOp.apply]
        rw [h.1, h.2]
        exact ⟨hw, hh⟩
      | setDim w h => exact setDim_nonneg self w h hw hh
    exact ih (op.apply self).1 step.1 step.2

/-- C2: the stored width and height of a surface are non-negative after the
constructor and after every later sequence of `setPos`/`setDim` calls, for
all signed extents and every padding; and `constrain` itself always leaves a
non-negative width and height. -/
theorem size_nonneg (x y width height border padding : Int) (r g b : CFloat)
    (srv : CreateReply) (ops : List RectOp) (self : Rectangle) (w h : Int) :
    (0 ≤ (runRectOps (Rectangle.new x y width height border padding r g b srv).1 ops).m_width ∧
      0 ≤ (runRectOps (Rectangle.new x y width height border padding r g b srv).1 ops).m_height)
    ∧ (0 ≤ (self.constrain w h).m_width ∧ 0 ≤ (self.constrain w h).m_height) := by
  have h0 := new_nonneg x y width height border padding r g b srv
  exact ⟨runRectOps_nonneg ops _ h0.1 h0.2, constrain_nonneg self w h⟩

/-- C3: when the effective padding of an axis is non-negative, the anchor
plus the offset computed by `constrain` is the top-left corner
`min(a, a + e) - p_eff` of the padded bounding box of the signed drag, and
adding the normalized extent gives the opposite corner
`max(a, a + e) + p_eff`; on the x axis and on the y axis. -/
theorem constrain_round_trip (self : Rectangle) (w h : Int) :
    (0 ≤ effectivePadding w self.m_padding →
      (self.constrain w h).m_x + (self.constrain w h).m_xoffset
          = min self.m_x (self.m_x + w) - effectivePadding w self.m_padding ∧
      (self.constrain w h).m_x + (self.constrain w h).m_xoffset + (self.constrain w h).m_width
          = max self.m_x (self.m_x + w) + effectivePadding w self.m_padding) ∧
    (0 ≤ effectivePadding h self.m_padding →
      (self.constrain w h).m_y + (self.constrain w h).m_yoffset
          = min self.m_y (self.m_y + h) - effectivePadding h self.m_padding ∧
      (self.constrain w h).m_y + (self.constrain w h).m_yoffset + (self.constrain w h).m_height
          = max self.m_y (self.m_y + h) + effectivePadding h self.m_padding) := by
  rw [constrain_eq_normalizeAxis]
  unfold normalizeAxis
  constructor
  · intro _
    by_cases hw : w < 0
    · simp only [hw, if_true]
      rw [min_eq_right (by omega), max_eq_left (by omega)]
      constructor <;> ring
    · simp only [hw, if_false]
      rw [min_eq_left (by omega), max_eq_right (by omega)]
      constructor <;> ring
  · intro _
    by_cases hh : h < 0
    · simp only [hh, if_true]
      rw [min_eq_right (by omega), max_eq_left (by omega)]
      constructor <;> ring
    · simp only [hh, if_false]
      rw [min_eq_left (by omega), max_eq_right (by omega)]
      constructor <;> ring

/-- Witness of C3: a drag of `(-50, 30)` from the anchor `(10, 10)` with
padding 3. -/
theorem constrain_round_trip_witness :
    (0 ≤ effectivePadding (-50) (3 : Int) ∧ 0 ≤ effectivePadding 30 (3 : Int)) ∧
    (let r := (Rectangle.new 10 10 0 0 0 3 channel0 channel0 channel0 reply5).1
     (r.constrain (-50) 30).m_x + (r.constrain (-50) 30).m_xoffset
        = min r.m_x (r.m_x + (-50)) - effectivePadding (-50) r.m_padding ∧
     (r.constrain (-50) 30).m_y + (r.constrain (-50) 30).m_yoffset
          + (r.constrain (-50) 30).m_height
        = max r.m_y (r.m_y + 30) + effectivePadding 30 r.m_padding) :=
  ⟨⟨by decide, by decide⟩,
   ((constrain_round_trip (Rectangle.new 10 10 0 0 0 3 channel0 channel0 channel0 reply5).1
      (-50) 30).1 (by decide)).1,
   ((constrain_round_trip (Rectangle.new 10 10 0 0 0 3 channel0 channel0 channel0 reply5).1
      (-50) 30).2 (by decide)).2⟩

theorem new_fields (x y w h border padding : Int) (r g b : CFloat) (srv : CreateReply) :
    (Rectangle.new x y w h border padding r g b srv).1.m_x = x ∧
    (Rectangle.new x y w h border padding r g b srv).1.m_y = y ∧
    (Rectangle.new x y w h border padding r g b srv).1.m_border = border ∧
    (Rectangle.new x y w h border padding r g b srv).1.m_padding = padding ∧
    (Rectangle.new x y w h border padding r g b srv).1.m_xoffset
      = (normalizeAxis w padding).offset ∧
    (Rectangle.new x y w h border padding r g b srv).1.m_width
      = (normalizeAxis w padding).normalized ∧
    (Rectangle.new x y w h border padding r g b srv).1.m_flippedx
      = (normalizeAxis w padding).flipped ∧
    (Rectangle.new x y w h border padding r g b srv).1.m_yoffset
      = (normalizeAxis h padding).offset ∧
    (Rectangle.new x y w h border padding r g b srv).1.m_height
      = (normalizeAxis h padding).normalized ∧
    (Rectangle.new x y w h border padding r g b srv).1.m_flippedy
      = (normalizeAxis h padding).flipped := by
  unfold Rectangle.new Rectangle.convertColor
  simp only [constrain_eq_normalizeAxis]
  split_ifs <;> simp

/-- C4: the constructor always stores the normalizer's width, height,
offsets and flip flags; with `border = 0` the surface keeps the handle `None`
and no Xlib call at all is made; with `border ≠ 0` exactly one `XCreateWindow`
is issued, at `(x + xoffset - border, y + yoffset - border)` with size
`(W + 2*border, H + 2*border)`. -/
theorem create_window (x y w h border padding : Int) (r g b : CFloat) (srv : CreateReply) :
    ((Rectangle.new x y w h border padding r g b srv).1.m_width
        = (normalizeAxis w padding).normalized ∧
      (Rectangle.new x y w h border padding r g b srv).1.m_height
        = (normalizeAxis h padding).normalized ∧
      (Rectangle.new x y w h border padding r g b srv).1.m_flippedx
        = (normalizeAxis w padding).flipped ∧
      (Rectangle.new x y w h border padding r g b srv).1.m_flippedy
        = (normalizeAxis h padding).flipped) ∧
    (border = 0 →
      (Rectangle.new x y w h border padding r g b srv).1.m_window = None ∧
      (Rectangle.new x y w h border padding r g b srv).2 = []) ∧
    (border ≠ 0 →
      (Rectangle.new x y w h border padding r g b srv).2.filter isCreateWindow =
        [XRequest.XCreateWindow
          (x + (normalizeAxis w padding).offset - border)
          (y + (normalizeAxis h padding).offset - border)
          ((normalizeAxis w padding).normalized + 2 * border)
          ((normalizeAxis h padding).normalized + 2 * border)
          ((Rectangle.new x y w h border padding r g b srv).1.m_color.map XColor.pixel)]) := by
  have hf := new_fields x y w h border padding r g b srv
  refine ⟨⟨hf.2.2.2.2.2.1, hf.2.2.2.2.2.2.2.2.1, hf.2.2.2.2.2.2.1, hf.2.2.2.2.2.2.2.2.2⟩, ?_, ?_⟩
  · intro hb
    subst hb
    unfold Rectangle.new
    simp [constrain_eq_normalizeAxis]
  · intro hb
    unfold Rectangle.new Rectangle.convertColor
    simp only [constrain_eq_normalizeAxis]
    split_ifs with h0 h1
    · exact absurd h0 hb
    · simp [isCreateWindow, mul_comm]
    · simp [isCreateWindow, mul_comm]

/-- Witness of C4: scenario A (border 2: one window at `(10-50-2, 10-50-2)`,
size 50 by 50 inside the border, both axes flipped) and scenario B (border 0:
no window, no call, size 50 by 50). -/
theorem create_window_witness :
    ((2 : Int) ≠ 0 ∧
      scenarioA.2.filter isCreateWindow =
        [XRequest.XCreateWindow (10 - 50 - 2) (10 - 50 - 2) (50 + 2 * 2) (50 + 2 * 2) (some 0)] ∧
      scenarioA.1.m_width = 50 ∧ scenarioA.1.m_height = 50 ∧
      scenarioA.1.m_flippedx = true ∧ scenarioA.1.m_flippedy = true) ∧
    ((0 : Int) = 0 ∧ scenarioB.1.m_window = None ∧ scenarioB.2 = [] ∧
      scenarioB.1.m_width = 50 ∧ scenarioB.1.m_height = 50) :=
  ⟨⟨by decide,
    (create_window 10 10 (-50) (-50) 2 0 channel0 channel0 channel0 reply5).2.2 (by decide),
    (create_window 10 10 (-50) (-50) 2 0 channel0 channel0 channel0 reply5).1.1,
    (create_window 10 10 (-50) (-50) 2 0 channel0 channel0 channel0 reply5).1.2.1,
    (create_window 10 10 (-50) (-50) 2 0 channel0 channel0 channel0 reply5).1.2.2.1,
    (create_window 10 10 (-50) (-50) 2 0 channel0 channel0 channel0 reply5).1.2.2.2⟩,
   ⟨rfl,
    ((create_window 0 0 50 50 0 0 channel0 channel0 channel0 reply5).2.1 rfl).1,
    ((create_window 0 0 50 50 0 0 channel0 channel0 channel0 reply5).2.1 rfl).2,
    (create_window 0 0 50 50 0 0 channel0 channel0 channel0 reply5).1.1,
    (create_window 0 0 50 50 0 0 channel0 channel0 channel0 reply5).1.2.1⟩⟩

theorem setPos_unchanged_noop (self : Rectangle) :
    self.setPos self.m_x self.m_y = (self, []) := by
  simp [Rectangle.setPos]

/-- C5 (the code departs from the claim): the surface of scenario A was
created with the extents `(-50, -50)` at `(10, 10)`.  Calling `setPos` again
with `(10, 10)` makes no Xlib call, but calling `setDim` again with
`(-50, -50)` passes the first test of `setDim`, which compares the request
with the stored normalized size 50 by 50: the surface is left as it was, yet
four Xlib calls are made. -/
theorem setDim_repeat_issues_requests :
    scenarioA.1.setPos 10 10 = (scenarioA.1, []) ∧
    scenarioA.1.setDim (-50) (-50) =
      (scenarioA.1,
        [XRequest.XResizeWindow 5 54 54,
         XRequest.XMoveWindow 5 (-42) (-42),
         XRequest.XShapeCombineRectangles 5 0 0 54 54 ShapeOp.ShapeSet,
         XRequest.XShapeCombineRectangles 5 2 2 50 50 ShapeOp.ShapeSubtract]) := by
  decide

theorem setDim_of_changed (self : Rectangle) (w h : Int)
    (hne : ¬ (self.m_width = w ∧ self.m_height = h)) :
    (self.setDim w h).1 = self.constrain w h := by
  unfold Rectangle.setDim
  simp only [hne, if_false]
  split_ifs <;> rfl

/-- C10 (the code departs from the claim): after scenario A the surface is
50 by 50 with both axes flipped and offsets `-50`; `setDim( 50, 50 )` then
returns at its first test, so the surface keeps the flipped flags and the
offsets `-50`, whereas `constrain( 50, 50 )` gives unflipped axes and
offsets `0`. -/
theorem setDim_keeps_stale_flip :
    scenarioA.1.setDim 50 50 = (scenarioA.1, []) ∧
    (scenarioA.1.setDim 50 50).1.m_flippedx = true ∧
    (scenarioA.1.setDim 50 50).1.m_flippedy = true ∧
    (scenarioA.1.setDim 50 50).1.m_xoffset = -50 ∧
    (scenarioA.1.setDim 50 50).1.m_yoffset = -50 ∧
    (scenarioA.1.constrain 50 50).m_flippedx = false ∧
    (scenarioA.1.constrain 50 50).m_flippedy = false ∧
    (scenarioA.1.constrain 50 50).m_xoffset = 0 ∧
    (scenarioA.1.constrain 50 50).m_yoffset = 0 := by
  decide

/-! ## Properties of the resource manager -/

theorem mouseDown_eq (self : XEngine) (b : Nat) :
    self.mouseDown b = self.m_mouse.getD b false := by
  unfold XEngine.mouseDown
  split_ifs with h
  · simp [List.getD_eq_getElem?_getD, List.getElem?_eq_none (by omega : self.m_mouse.length ≤ b)]
  · rfl

theorem getD_set_self (l : List Bool) (b : Nat) (v : Bool) (h : b < l.length) :
    (l.set b v).getD b false = v := by
  simp [List.getD_eq_getElem?_getD, List.getElem?_set, h]

theorem getD_set_other (l : List Bool) (b c : Nat) (v : Bool) (h : c ≠ b) :
    (l.set b v).getD c false = l.getD c false := by
  simp [List.getD_eq_getElem?_getD, List.getElem?_set, Ne.symm h]

theorem vresize_length {α : Type} (v : List α) (n : Nat) (val : α) :
    (vresize v n val).length = n := by
  simp [vresize]
  omega

theorem getD_vresize_grow (l : List Bool) (n c : Nat) (h : l.length ≤ n) :
    (vresize l n false).getD c false = l.getD c false := by
  unfold vresize
  rw [List.take_of_length_le h]
  simp only [List.getD_eq_getElem?_getD]
  by_cases hc : c < l.length
  · rw [List.getElem?_append_left hc]
  · rw [List.getElem?_append_right (by omega), List.getElem?_eq_none (by omega : l.length ≤ c)]
    by_cases hr : c - l.length < n - l.length
    · simp [List.getElem?_replicate, hr]
    · simp [List.getElem?_replicate, hr]

theorem tickEvent_press (self : XEngine) (b c : Nat) (v : Bool) (hc : c ≠ b)
    (after : XEngine)
    (hafter : after.m_mouse =
      if self.m_mouse.length > b then self.m_mouse.set b v
      else (vresize self.m_mouse (b + 2) false).set b v) :
    after.mouseDown b = v ∧ after.mouseDown c = self.mouseDown c ∧
      after.m_mouse.length = (if b < self.m_mouse.length then self.m_mouse.length else b + 2) := by
  rw [mouseDown_eq, mouseDown_eq, mouseDown_eq, hafter]
  by_cases h : self.m_mouse.length > b
  · simp only [h, if_true]
    refine ⟨getD_set_self _ _ _ h, getD_set_other _ _ _ _ hc, ?_⟩
    simp [h]
  · simp only [h, if_false]
    refine ⟨getD_set_self _ _ _ (by rw [vresize_length]; omega), ?_, ?_⟩
    · rw [getD_set_other _ _ _ _ hc, getD_vresize_grow _ _ _ (by omega)]
    · simp [vresize_length, h]

theorem tickEvent_mouse_press (self : XEngine) (b : Nat) :
    (self.tickEvent (XEvent.ButtonPress b)).m_mouse =
      if self.m_mouse.length > b then self.m_mouse.set b true
      else (vresize self.m_mouse (b + 2) false).set b true := by
  simp only [XEngine.tickEvent]
  split_ifs <;> rfl

theorem tickEvent_mouse_release (self : XEngine) (b : Nat) :
    (self.tickEvent (XEvent.ButtonRelease b)).m_mouse =
      if self.m_mouse.length > b then self.m_mouse.set b false
      else (vresize self.m_mouse (b + 2) false).set b false := by
  simp only [XEngine.tickEvent]
  split_ifs <;> rfl

theorem updateHoverWindow_mouse (self : XEngine) (mem : Heap) (hoverwin : Window) :
    (self.updateHoverWindow mem hoverwin).1.m_mouse = self.m_mouse := by
  unfold XEngine.updateHoverWindow
  split_ifs <;> rfl

theorem tick_last_event (self : XEngine) (mem : Heap) (evs : List XEvent) (ev : XEvent)
    (hoverwin : Window) (hgood : self.m_good = true) :
    (self.tick mem (evs ++ [ev]) hoverwin).1.m_mouse
      = ((evs.foldl XEngine.tickEvent self).tickEvent ev).m_mouse := by
  unfold XEngine.tick
  simp only [hgood, Bool.not_true, Bool.false_eq_true, if_false, List.foldl_append,
    List.foldl_cons, List.foldl_nil]
  exact updateHoverWindow_mouse _ mem hoverwin

/-- C7: let `tick` run on a valid engine and drain a queue that ends with a
press (a release) of button `b`; with `before` the engine just before that
event is folded, afterwards `mouseDown(b)` is true (false), `mouseDown(c)` is
as in `before` for every `c ≠ b`, and the container has its old size when it
already tracked `b` and size `b + 2` otherwise. -/
theorem tick_button_update (self : XEngine) (mem : Heap) (evs : List XEvent)
    (hoverwin : Window) (b c : Nat) (hgood : self.m_good = true) (hc : c ≠ b) :
    ((self.tick mem (evs ++ [XEvent.ButtonPress b]) hoverwin).1.mouseDown b = true ∧
      (self.tick mem (evs ++ [XEvent.ButtonPress b]) hoverwin).1.mouseDown c
        = (evs.foldl XEngine.tickEvent self).mouseDown c ∧
      (self.tick mem (evs ++ [XEvent.ButtonPress b]) hoverwin).1.m_mouse.length
        = (if b < (evs.foldl XEngine.tickEvent self).m_mouse.length
            then (evs.foldl XEngine.tickEvent self).m_mouse.length else b + 2)) ∧
    ((self.tick mem (evs ++ [XEvent.ButtonRelease b]) hoverwin).1.mouseDown b = false ∧
      (self.tick mem (evs ++ [XEvent.ButtonRelease b]) hoverwin).1.mouseDown c
        = (evs.foldl XEngine.tickEvent self).mouseDown c ∧
      (self.tick mem (evs ++ [XEvent.ButtonRelease b]) hoverwin).1.m_mouse.length
        = (if b < (evs.foldl XEngine.tickEvent self).m_mouse.length
            then (evs.foldl XEngine.tickEvent self).m_mouse.length else b + 2)) := by
  constructor
  · apply tickEvent_press (evs.foldl XEngine.tickEvent self) b c true hc
    rw [tick_last_event self mem evs _ hoverwin hgood]
    exact tickEvent_mouse_press _ b
  · apply tickEvent_press (evs.foldl XEngine.tickEvent self) b c false hc
    rw [tick_last_event self mem evs _ hoverwin hgood]
    exact tickEvent_mouse_release _ b

/-- Witness of C7, scenario D: the engine tracks the buttons 0 to 3, a press
of button 9 is queued; after `tick` button 9 reads pressed, button 2 reads as
before and the container has grown from 4 to 11 entries. -/
theorem tick_button_update_witness :
    (engineD.m_good = true ∧ (2 : Nat) ≠ 9 ∧ engineD.m_mouse.length = 4) ∧
    ((engineD.tick heapA ([] ++ [XEvent.ButtonPress 9]) 0).1.mouseDown 9 = true ∧
      (engineD.tick heapA ([] ++ [XEvent.ButtonPress 9]) 0).1.mouseDown 2
        = (([] : List XEvent).foldl XEngine.tickEvent engineD).mouseDown 2 ∧
      (engineD.tick heapA ([] ++ [XEvent.ButtonPress 9]) 0).1.m_mouse.length
        = (if 9 < (([] : List XEvent).foldl XEngine.tickEvent engineD).m_mouse.length
            then (([] : List XEvent).foldl XEngine.tickEvent engineD).m_mouse.length
            else 9 + 2)) :=
  ⟨⟨by decide, by decide, by decide⟩,
   (tick_button_update engineD heapA [] 0 9 2 (by decide) (by decide)).1⟩

set_option maxRecDepth 20000 in
/-- C8 (the code departs from the claim): on an initialised engine the
upper-right-corner cursor (shape 148) is resolved, then the left pointer
(shape 68), then the upper-right corner again.  The second resolution
truncates the cache from 150 to 70 entries, dropping cursor 101, and the third
creates the shape 148 a second time and yields cursor 103 instead of 101. -/
theorem getCursor_shrinks_and_recreates :
    (cursorRun.map (fun s => s.2)) =
      [[XRequest.XCreateFontCursor 148, XRequest.XChangeActivePointerGrab 101],
       [XRequest.XCreateFontCursor 68, XRequest.XChangeActivePointerGrab 102],
       [XRequest.XCreateFontCursor 148, XRequest.XChangeActivePointerGrab 103]] ∧
    (cursorRun.map (fun s => s.1.m_cursors.length)) = [150, 70, 150] ∧
    (cursorRun.map (fun s => s.1.m_cursors.getD 148 0)) = [101, 0, 103] := by
  decide

theorem getCursor_frame (self : XEngine) (type : CursorType) (created : Cursor) :
    (self.getCursor type created).2.1.m_rects = self.m_rects ∧
    (self.getCursor type created).2.1.m_hoverWindow = self.m_hoverWindow ∧
    (self.getCursor type created).2.1.m_good = self.m_good := by
  unfold XEngine.getCursor
  simp only []
  split_ifs <;> simp

/-- C9, amended: on an engine whose validity flag is false, `tick`,
`grabKeyboard`, `releaseKeyboard`, `grabCursor`, `releaseCursor`,
`setCursor`, `anyKeyPressed` and the destructor return the engine unchanged
and make no Xlib call (`mouseDown` only reads the button container).
`addRect` and `removeRect` are not covered: they do not test the flag. -/
theorem invalid_engine_inert (self : XEngine) (mem : Heap) (events : List XEvent)
    (hoverwin : Window) (type : CursorType) (srv : GrabReply) (created : Cursor)
    (keys : Nat → Int) (hbad : self.m_good = false) :
    self.tick mem events hoverwin = (self, []) ∧
    self.grabKeyboard = (1, self, []) ∧
    self.releaseKeyboard = (1, self, []) ∧
    self.grabCursor mem type srv = (1, self, []) ∧
    self.releaseCursor = (1, self, []) ∧
    self.setCursor type created = (self, []) ∧
    self.anyKeyPressed keys = (false, []) ∧
    self.delete mem = [] := by
  simp [XEngine.tick, XEngine.grabKeyboard, XEngine.releaseKeyboard, XEngine.grabCursor,
    XEngine.releaseCursor, XEngine.setCursor, XEngine.anyKeyPressed, XEngine.delete, hbad]

/-- Witness of C9: the engine as constructed, before any `init`. -/
theorem invalid_engine_inert_witness :
    XEngine.new.m_good = false ∧
    XEngine.new.tick heapA [XEvent.ButtonPress 1] 5 = (XEngine.new, []) ∧
    XEngine.new.grabKeyboard = (1, XEngine.new, []) ∧
    XEngine.new.releaseKeyboard = (1, XEngine.new, []) ∧
    XEngine.new.grabCursor heapA CursorType.Cross grabReply0 = (1, XEngine.new, []) ∧
    XEngine.new.releaseCursor = (1, XEngine.new, []) ∧
    XEngine.new.setCursor CursorType.Cross 101 = (XEngine.new, []) ∧
    XEngine.new.anyKeyPressed noKeys = (false, []) ∧
    XEngine.new.delete heapA = [] :=
  ⟨by decide,
   invalid_engine_inert XEngine.new heapA [XEvent.ButtonPress 1] 5 CursorType.Cross grabReply0
     101 noKeys (by decide)⟩

/-- Counterexample to C9 as stated: the engine as constructed is invalid, yet
`addRect` changes it (the surface is tracked), and on the resulting engine,
still invalid, `removeRect` changes the state again. -/
theorem invalid_engine_addRect_changes :
    XEngine.new.m_good = false ∧
    XEngine.new.addRect 1 ≠ XEngine.new ∧
    (XEngine.new.addRect 1).m_good = false ∧
    ((XEngine.new.addRect 1).removeRect heapB 1).1 ≠ XEngine.new.addRect 1 := by
  decide

theorem HoverExcluded_of_eq (mem : Heap) (a b : XEngine) (hr : b.m_rects = a.m_rects)
    (hh : b.m_hoverWindow = a.m_hoverWindow) (h : HoverExcluded mem a) :
    HoverExcluded mem b := by
  unfold HoverExcluded at *
  rw [hr, hh]
  exact h

theorem tickEvent_frame (self : XEngine) (ev : XEvent) :
    (self.tickEvent ev).m_rects = self.m_rects ∧
    (self.tickEvent ev).m_hoverWindow = self.m_hoverWindow := by
  cases ev <;> simp only [XEngine.tickEvent] <;> (try split_ifs) <;> simp

theorem foldl_tickEvent_frame (evs : List XEvent) (self : XEngine) :
    (evs.foldl XEngine.tickEvent self).m_rects = self.m_rects ∧
    (evs.foldl XEngine.tickEvent self).m_hoverWindow = self.m_hoverWindow := by
  induction evs generalizing self with
  | nil => exact ⟨rfl, rfl⟩
  | cons ev evs ih =>
    have h1 := tickEvent_frame self ev
    have h2 := ih (self.tickEvent ev)
    simp only [List.foldl_cons]
    exact ⟨h2.1.trans h1.1, h2.2.trans h1.2⟩

theorem updateHoverWindowAt_step (self : XEngine) (mem : Heap) (hoverwin : Window) :
    (self.updateHoverWindowAt mem hoverwin).m_rects = self.m_rects ∧
    ((self.updateHoverWindowAt mem hoverwin).m_hoverWindow = self.m_hoverWindow ∨
      ((self.updateHoverWindowAt mem hoverwin).m_hoverWindow = hoverwin ∧
        ∀ p ∈ self.m_rects, (mem p).m_window ≠ hoverwin)) := by
  unfold XEngine.updateHoverWindowAt
  split_ifs with h1 h2
  · exact ⟨rfl, Or.inl rfl⟩
  · exact ⟨rfl, Or.inl rfl⟩
  · refine ⟨rfl, Or.inr ⟨rfl, ?_⟩⟩
    intro p hp hw
    apply h2
    rw [List.any_eq_true]
    exact ⟨p, hp, by simp [hw]⟩

theorem updateHoverWindow_eq_At (self : XEngine) (mem : Heap) (hoverwin : Window) :
    (self.updateHoverWindow mem hoverwin).1 = self.updateHoverWindowAt mem hoverwin := by
  unfold XEngine.updateHoverWindow XEngine.updateHoverWindowAt
  split_ifs <;> rfl

theorem updateHoverWindowAt_excluded (self : XEngine) (mem : Heap) (hoverwin : Window)
    (h : HoverExcluded mem self) : HoverExcluded mem (self.updateHoverWindowAt mem hoverwin) := by
  have hs := updateHoverWindowAt_step self mem hoverwin
  rcases hs.2 with hu | ⟨hset, hfree⟩
  · exact HoverExcluded_of_eq mem self _ hs.1 hu h
  · intro p hp _
    rw [hs.1] at hp
    rw [hset]
    exact hfree p hp

theorem apply_excluded (mem : Heap) (self : XEngine) (op : EngineOp)
    (hadd : ∀ rect, op = EngineOp.addRect rect →
      (mem rect).m_window ≠ None → (mem rect).m_window ≠ self.m_hoverWindow)
    (h : HoverExcluded mem self) : HoverExcluded mem (op.apply mem self) := by
  cases op with
  | init srv =>
    cases srv with
    | none => exact HoverExcluded_of_eq mem self _ rfl rfl h
    | some d => exact HoverExcluded_of_eq mem self _ rfl rfl h
  | addRect rect =>
    intro p hp hn
    simp only [EngineOp.apply, XEngine.addRect, List.mem_append, List.mem_singleton] at hp
    rcases hp with hp | hp
    · exact h p hp hn
    · rw [hp] at hn ⊢
      exact hadd rect rfl hn
  | removeRect rect =>
    simp only [EngineOp.apply, XEngine.removeRect]
    split_ifs
    · intro p hp hn
      exact h p (List.mem_of_mem_erase hp) hn
    · exact h
  | updateHoverWindow hoverwin =>
    simp only [EngineOp.apply, updateHoverWindow_eq_At]
    exact updateHoverWindowAt_excluded self mem hoverwin h
  | updateHoverWindowAt hoverwin =>
    exact updateHoverWindowAt_excluded self mem hoverwin h
  | tick events hoverwin =>
    simp only [EngineOp.apply, XEngine.tick]
    split_ifs
    · exact h
    · simp only [updateHoverWindow_eq_At]
      apply updateHoverWindowAt_excluded
      have hf := foldl_tickEvent_frame events self
      exact HoverExcluded_of_eq mem self _ hf.1 hf.2 h
  | grabCursor type srv =>
    have hf := getCursor_frame self type srv.cursor
    simp only [EngineOp.apply, XEngine.grabCursor]
    split_ifs
    · exact h
    · exact HoverExcluded_of_eq mem self _ hf.1 hf.2.1 h
    · apply updateHoverWindowAt_excluded
      exact HoverExcluded_of_eq mem self _ hf.1 hf.2.1 h

theorem run_excluded (mem : Heap) (ops : List EngineOp) (self : XEngine)
    (hadds : AddsUntargeted mem self ops) (h : HoverExcluded mem self) :
    HoverExcluded mem (runEngineOps mem self ops) := by
  induction ops generalizing self with
  | nil => exact h
  | cons op ops ih =>
    obtain ⟨h1, h2⟩ := hadds
    apply ih (op.apply mem self) h2
    apply apply_excluded mem self op _ h
    intro rect hop
    subst hop
    exact h1

/-- C6, amended: start from the constructed engine and run `init`, `addRect`,
`removeRect`, both `updateHoverWindow` overloads, `tick` and `grabCursor`
with arbitrary server answers; if every `addRect` adds a surface that has no
window or whose window is not the hover target cached at that moment, the
cached hover target is never the window of a tracked surface.  And each hover
resolution, on any engine, keeps the tracked list and leaves the target
unchanged or sets it to the reported window, the latter only when no tracked
surface has that window. -/
theorem hover_excluded (mem : Heap) (ops : List EngineOp) (self : XEngine)
    (hoverwin : Window) (hadds : AddsUntargeted mem XEngine.new ops) :
    HoverExcluded mem (runEngineOps mem XEngine.new ops) ∧
    ((self.updateHoverWindow mem hoverwin).1.m_rects = self.m_rects ∧
      ((self.updateHoverWindow mem hoverwin).1.m_hoverWindow = self.m_hoverWindow ∨
        ((self.updateHoverWindow mem hoverwin).1.m_hoverWindow = hoverwin ∧
          ∀ p ∈ self.m_rects, (mem p).m_window ≠ hoverwin))) ∧
    ((self.updateHoverWindowAt mem hoverwin).m_rects = self.m_rects ∧
      ((self.updateHoverWindowAt mem hoverwin).m_hoverWindow = self.m_hoverWindow ∨
        ((self.updateHoverWindowAt mem hoverwin).m_hoverWindow = hoverwin ∧
          ∀ p ∈ self.m_rects, (mem p).m_window ≠ hoverwin))) := by
  refine ⟨run_excluded mem ops XEngine.new hadds ?_, ?_, updateHoverWindowAt_step self mem hoverwin⟩
  · intro p hp
    simp [XEngine.new] at hp
  · rw [updateHoverWindow_eq_At]
    exact updateHoverWindowAt_step self mem hoverwin

/-- Witness of C6: in `runTrackedFirst` an inert surface is added while the
target is `None` and the surface owning window 5 is added next; the report of
window 5 is then ignored, the report of window 7 is taken, and at the end both
surfaces are tracked, the target is 7 and the exclusion holds. -/
theorem hover_excluded_witness :
    AddsUntargeted heapAB XEngine.new runTrackedFirst ∧
    (heapAB 2).m_window = None ∧ (heapAB 1).m_window = 5 ∧
    (runEngineOps heapAB XEngine.new (runTrackedFirst.take 4)).m_hoverWindow = None ∧
    (runEngineOps heapAB XEngine.new runTrackedFirst).m_hoverWindow = 7 ∧
    (runEngineOps heapAB XEngine.new runTrackedFirst).m_rects = [2, 1] ∧
    HoverExcluded heapAB (runEngineOps heapAB XEngine.new runTrackedFirst) :=
  ⟨⟨trivial, by decide, by decide, trivial, trivial, trivial⟩,
   by decide, by decide, by decide, by decide, by decide,
   (hover_excluded heapAB runTrackedFirst engine0 5
      ⟨trivial, by decide, by decide, trivial, trivial, trivial⟩).1⟩

/-- Counterexample to C6 as stated: in `runTrackedLate` the engine is
initialised, `tick` finds the pointer over window 5 while no surface is
tracked, and the surface owning window 5 is added afterwards; the cached
hover target then is the window, not `None`, of a tracked surface. -/
theorem hover_target_is_tracked_window :
    (runEngineOps heapA XEngine.new runTrackedLate).m_hoverWindow = 5 ∧
    (runEngineOps heapA XEngine.new runTrackedLate).m_rects = [1] ∧
    (heapA 1).m_window = 5 ∧ (heapA 1).m_window ≠ None ∧
    ¬ HoverExcluded heapA (runEngineOps heapA XEngine.new runTrackedLate) := by
  refine ⟨by decide, by decide, by decide, by decide, ?_⟩
  intro h
  exact h 1 (by decide) (by decide) (by decide)

end slop
